import Mathlib

/-!
Shallow embedding of `workload_parser.py` (the Speed_Serve workload-replay
driver).  Pure string primitives model the Python string operations used by
the source (restricted to ASCII whitespace and digits); the replay driver
`parse_workload` is modelled as a function from the workload's raw lines, the
initial presence of the restart flag file, and an HTTP oracle to the trace of
externally visible events (database reset, flag create/delete, HTTP requests,
printed lines) together with the final presence of the flag file.  The
database reset action is additionally modelled on an explicit filesystem
state (path to optional content) for the idempotence claim.
-/

namespace SpeedServe

/-- ASCII whitespace, the characters Python's `str.strip()` / `str.split()`
remove for ASCII input (the embedding restricts Python's Unicode whitespace
to ASCII). -/
def isPyWs (c : Char) : Bool :=
  c == ' ' || c == '\t' || c == '\n' || c == '\r' || c == '\x0b' || c == '\x0c'

/-- Drop leading ASCII whitespace from a character list. -/
def stripL (cs : List Char) : List Char := cs.dropWhile isPyWs

/-- Drop trailing ASCII whitespace from a character list. -/
def stripR (cs : List Char) : List Char := (cs.reverse.dropWhile isPyWs).reverse

/-- Model of Python `str.strip()`: drop leading and trailing whitespace
(source: `line.strip()` in `parse_workload`). -/
def pystrip (s : String) : String := String.mk (stripR (stripL s.data))

/-- Does the character list `s` begin with the character list `pat`? -/
def leadMatch : List Char → List Char → Bool
  | [], _ => true
  | _ :: _, [] => false
  | a :: as, b :: bs => a == b && leadMatch as bs

/-- Model of Python `s.startswith(t)`. -/
def pyStartsWith (s t : String) : Bool := leadMatch t.data s.data

/-- A line the driver skips: empty, or a `#` / `//` comment (source:
`if not line or line.startswith('#') or line.startswith('//')`). -/
def isSkippable (l : String) : Bool :=
  l == "" || pyStartsWith l "#" || pyStartsWith l "//"

/-- The first non-blank, non-comment line of the (already stripped) workload
lines (source: the `first_real_command` scan in `parse_workload`). -/
def first_real_command (lines : List String) : Option String :=
  lines.find? (fun l => !isSkippable l)

/-- Accumulator-based splitter on ASCII whitespace, discarding empty pieces,
modelling Python `str.split()` with no arguments. -/
def splitWsAux : List Char → List Char → List (List Char)
  | [], acc => if acc.isEmpty then [] else [acc.reverse]
  | c :: rest, acc =>
    if isPyWs c then
      if acc.isEmpty then splitWsAux rest [] else acc.reverse :: splitWsAux rest []
    else splitWsAux rest (c :: acc)

/-- Model of Python `line.split()` (source: `parts = line.split()` in
`process_command`). -/
def pySplit (s : String) : List String := (splitWsAux s.data []).map String.mk

/-- Model of Python `str.upper()` (ASCII). -/
def pyUpper (s : String) : String := String.mk (s.data.map Char.toUpper)

/-- Model of Python `str.lower()` (ASCII). -/
def pyLower (s : String) : String := String.mk (s.data.map Char.toLower)

/-- Digit-run accumulator for `pyInt`: consumes ASCII digits, allowing a
single underscore only between two digits, as Python's `int()` does. -/
def digitsVal : Nat → List Char → Option Nat
  | acc, [] => some acc
  | acc, c :: rest =>
    if c.isDigit then digitsVal (acc * 10 + (c.toNat - 48)) rest
    else if c == '_' then
      match rest with
      | c2 :: rest2 =>
        if c2.isDigit then digitsVal (acc * 10 + (c2.toNat - 48)) rest2 else none
      | [] => none
    else none

/-- Parse a nonempty ASCII digit run (with Python's underscore rule). -/
def parseDigits : List Char → Option Nat
  | [] => none
  | c :: rest => if c.isDigit then digitsVal (c.toNat - 48) rest else none

/-- Model of Python `int(s)` on strings: optional surrounding whitespace,
optional sign, nonempty ASCII digit run with underscores between digits;
`none` models the `ValueError` the source catches (source: `int(args[0])`
and friends in the dispatcher). -/
def pyInt (s : String) : Option Int :=
  match (pystrip s).data with
  | '+' :: rest => (parseDigits rest).map (fun n => (n : Int))
  | '-' :: rest => (parseDigits rest).map (fun n => -(n : Int))
  | cs => (parseDigits cs).map (fun n => (n : Int))

/-- Split a character list at the first character satisfying `p`, returning
the pieces before and after it. -/
def splitFirstP (p : Char → Bool) : List Char → Option (List Char × List Char)
  | [] => none
  | c :: rest =>
    if p c then some ([], rest)
    else (splitFirstP p rest).map (fun q => (c :: q.1, q.2))

/-- Model of Python `arg.split(':', 1)` followed by unpacking into two
variables: `some (key, value)` when the argument contains a colon, `none`
modelling the `ValueError` raised (and caught) when it does not (source:
`key, value = arg.split(':', 1)` in the update handlers). -/
def pySplitColon (s : String) : Option (String × String) :=
  (splitFirstP (fun c => c == ':') s.data).map (fun q => (String.mk q.1, String.mk q.2))

/-- Is `cs` a valid digit run for a float literal? -/
def digitsRun (cs : List Char) : Bool := (parseDigits cs).isSome

/-- Mantissa of a Python float literal: digits, digits `.` optional digits,
or `.` digits. -/
def mantissaOk (cs : List Char) : Bool :=
  match splitFirstP (fun c => c == '.') cs with
  | none => digitsRun cs
  | some q =>
    (digitsRun q.1 && (q.2.isEmpty || digitsRun q.2)) || (q.1.isEmpty && digitsRun q.2)

/-- Optionally signed digit run (the exponent of a float literal). -/
def signedDigits : List Char → Bool
  | '+' :: rest => digitsRun rest
  | '-' :: rest => digitsRun rest
  | cs => digitsRun cs

/-- Finite Python float literal body (after the optional leading sign):
mantissa with an optional `e`/`E` exponent. -/
def floatTextOk (cs : List Char) : Bool :=
  match splitFirstP (fun c => c == 'e' || c == 'E') cs with
  | none => mantissaOk cs
  | some q => mantissaOk q.1 && signedDigits q.2

/-- The special float literals `inf`, `infinity`, `nan` (case-insensitive). -/
def floatSpecialOk (cs : List Char) : Bool :=
  let l := String.mk (cs.map Char.toLower)
  l == "inf" || l == "infinity" || l == "nan"

/-- Model of Python `float(s)` acceptance: `some` of the stripped literal
when `float()` succeeds, `none` modelling the caught `ValueError`.  The
floating-point VALUE is modelled by its source text: no claim inspects the
numeric value and floating-point arithmetic is outside the embedding
(source: `float(args[3])` in `handle_product_command`). -/
def pyFloat (s : String) : Option String :=
  let t := pystrip s
  let body :=
    match t.data with
    | '+' :: rest => rest
    | '-' :: rest => rest
    | cs => cs
  if floatSpecialOk body || floatTextOk body then some t else none

/-- A JSON-capable payload value: Python int, float (by its literal text,
see `pyFloat`) or string. -/
inductive Value where
  | int (i : Int)
  | float (f : String)
  | str (s : String)
deriving DecidableEq

/-- HTTP method used by the dispatcher. -/
inductive Method where
  | get
  | post
deriving DecidableEq

/-- One HTTP request issued by the dispatcher: method, full URL, optional
JSON payload (an insertion-ordered dict), and whether the
`Content-Type: application/json` header is sent. -/
structure Request where
  method : Method
  url : String
  payload : Option (List (String × Value))
  jsonHeaders : Bool
deriving DecidableEq

/-- A POST with a JSON payload and the JSON content-type header (source:
`requests.post(base_endpoint, json=payload, headers=headers)`). -/
def Request.postJson (url : String) (payload : List (String × Value)) : Request :=
  ⟨Method.post, url, some payload, true⟩

/-- A plain GET (source: `requests.get(endpoint)`). -/
def Request.getReq (url : String) : Request :=
  ⟨Method.get, url, none, false⟩

/-- Externally visible events of a run, in order. -/
inductive Event where
  | resetDB
  | createFlag
  | removeFlag
  | request (r : Request)
  | output (s : String)
deriving DecidableEq

/-- Outcome of one HTTP call: a response with a status code and body text,
or a raised transport exception. -/
inductive HttpOutcome where
  | response (status : Nat) (text : String)
  | exn
deriving DecidableEq

/-- The downstream service, as an oracle from requests to outcomes. -/
abbrev Oracle := Request → HttpOutcome

/-- The oracle whose every call raises, for concrete witnesses. -/
def exnOracle : Oracle := fun _ => HttpOutcome.exn

/-- The literal the generic exception handlers print:
`print("Failed:  \x7b\x7d")` in the source prints `Failed:  ` followed by an
opening and a closing curly brace. -/
def failLiteral : String := "Failed:  \x7b\x7d"

/-- The literal the ORDER place exception handler prints (source:
`print("Failed: \x7b\"status\":\"Invalid Request\"\x7d")`). -/
def orderFailLiteral : String := "Failed: \x7b\"status\":\"Invalid Request\"\x7d"

/-- The line printed after observing an HTTP outcome inside a try-block:
status 200 prints `Successful: ` plus the body, any other status prints
`Failed: ` plus the body (Python `print(a, b)` joins with one space), and a
raised exception falls to the handler, printing `caught`. -/
def respOutput (caught : String) : HttpOutcome → Event
  | HttpOutcome.response status text =>
    if status == 200 then Event.output ("Successful:  " ++ text)
    else Event.output ("Failed:  " ++ text)
  | HttpOutcome.exn => Event.output caught

/-- Common shape of every dispatcher branch's `try`/`except`: `req?` is the
built request (`none` when building it raised), `caught` the literal the
`except` handler prints.  A successfully built request is issued exactly
once and its outcome reported. -/
def tryBranch (req? : Option Request) (caught : String) (http : Oracle) : List Event :=
  match req? with
  | none => [Event.output caught]
  | some r => [Event.request r, respOutput caught (http r)]

/-- Python dict assignment `d[k] = v` on an insertion-ordered association
list: overwrite in place when the key exists, else append. -/
def dictSet (d : List (String × Value)) (k : String) (v : Value) : List (String × Value) :=
  if d.any (fun kv => kv.1 == k) then
    d.map (fun kv => if kv.1 == k then (k, v) else kv)
  else d ++ [(k, v)]

/-- The update-field loop of the USER/PRODUCT update handlers: for each
argument, split at the first colon and assign `payload[key] = value`;
`none` when some argument has no colon (source: the `for arg in args[1:]`
loop). -/
def updateFields : List String → List (String × Value) → Option (List (String × Value))
  | [], payload => some payload
  | a :: t, payload =>
    match pySplitColon a with
    | none => none
    | some kv => updateFields t (dictSet payload kv.1 (Value.str kv.2))

/-- Payload built by the USER create branch (source lines 113-120). -/
def tryUserCreate (args : List String) : Option (List (String × Value)) := do
  let a0 ← args[0]?
  let i ← pyInt a0
  let u ← args[1]?
  let e ← args[2]?
  let p ← args[3]?
  pure [("command", Value.str "create"), ("id", Value.int i),
        ("username", Value.str u), ("email", Value.str e), ("password", Value.str p)]

/-- Payload built by the USER update branch (source lines 143-149). -/
def tryUserUpdate (args : List String) : Option (List (String × Value)) := do
  let a0 ← args[0]?
  let i ← pyInt a0
  updateFields (args.drop 1) [("command", Value.str "update"), ("id", Value.int i)]

/-- Payload built by the USER delete branch (source lines 161-168). -/
def tryUserDelete (args : List String) : Option (List (String × Value)) := do
  let a0 ← args[0]?
  let i ← pyInt a0
  let u ← args[1]?
  let e ← args[2]?
  let p ← args[3]?
  pure [("command", Value.str "delete"), ("id", Value.int i),
        ("username", Value.str u), ("email", Value.str e), ("password", Value.str p)]

/-- The request built by each USER action branch: `none` when no branch of
the `if`/`elif` chain matches (a silent no-op), `some none` when the matched
branch's request construction raised, `some (some r)` when it built `r`
(source: `handle_user_command`). -/
def userRequest (ep : String) (command : String) (args : List String) :
    Option (Option Request) :=
  if command == "create" then some ((tryUserCreate args).map (Request.postJson ep))
  else if command == "get" then
    some ((args[0]?).map (fun uid => Request.getReq (ep ++ "/" ++ uid)))
  else if command == "update" then some ((tryUserUpdate args).map (Request.postJson ep))
  else if command == "delete" then some ((tryUserDelete args).map (Request.postJson ep))
  else none

/-- Events of `handle_user_command`: endpoint is `<base>/user`; every branch
is a `tryBranch` with the generic `except` literal. -/
def handle_user_command (base command : String) (args : List String) (http : Oracle) :
    List Event :=
  match userRequest (base ++ "/user") command args with
  | none => []
  | some req? => tryBranch req? failLiteral http

/-- Payload built by the PRODUCT create branch (source lines 183-191). -/
def tryProductCreate (args : List String) : Option (List (String × Value)) := do
  let a0 ← args[0]?
  let i ← pyInt a0
  let n ← args[1]?
  let d ← args[2]?
  let a3 ← args[3]?
  let pr ← pyFloat a3
  let a4 ← args[4]?
  let q ← pyInt a4
  pure [("command", Value.str "create"), ("id", Value.int i), ("name", Value.str n),
        ("description", Value.str d), ("price", Value.float pr), ("quantity", Value.int q)]

/-- Payload built by the PRODUCT update branch (source lines 214-220). -/
def tryProductUpdate (args : List String) : Option (List (String × Value)) := do
  let a0 ← args[0]?
  let i ← pyInt a0
  updateFields (args.drop 1) [("command", Value.str "update"), ("id", Value.int i)]

/-- Payload built by the PRODUCT delete branch (source lines 232-239). -/
def tryProductDelete (args : List String) : Option (List (String × Value)) := do
  let a0 ← args[0]?
  let i ← pyInt a0
  let n ← args[1]?
  let a2 ← args[2]?
  let pr ← pyFloat a2
  let a3 ← args[3]?
  let q ← pyInt a3
  pure [("command", Value.str "delete"), ("id", Value.int i), ("name", Value.str n),
        ("price", Value.float pr), ("quantity", Value.int q)]

/-- The request built by each PRODUCT action branch (source:
`handle_product_command`), conventions as in `userRequest`. -/
def productRequest (ep : String) (command : String) (args : List String) :
    Option (Option Request) :=
  if command == "create" then some ((tryProductCreate args).map (Request.postJson ep))
  else if command == "info" then
    some ((args[0]?).map (fun pid => Request.getReq (ep ++ "/" ++ pid)))
  else if command == "update" then some ((tryProductUpdate args).map (Request.postJson ep))
  else if command == "delete" then some ((tryProductDelete args).map (Request.postJson ep))
  else none

/-- Events of `handle_product_command`: endpoint is `<base>/product`. -/
def handle_product_command (base command : String) (args : List String) (http : Oracle) :
    List Event :=
  match productRequest (base ++ "/product") command args with
  | none => []
  | some req? => tryBranch req? failLiteral http

/-- Payload built by the ORDER place branch (source lines 255-260). -/
def tryOrderPlace (args : List String) : Option (List (String × Value)) := do
  let a0 ← args[0]?
  let pid ← pyInt a0
  let a1 ← args[1]?
  let uid ← pyInt a1
  let a2 ← args[2]?
  let q ← pyInt a2
  pure [("command", Value.str "place order"), ("product_id", Value.int pid),
        ("user_id", Value.int uid), ("quantity", Value.int q)]

/-- The request built by the ORDER action branch (source:
`handle_order_command`, whose only action is `place`). -/
def orderRequest (ep : String) (command : String) (args : List String) :
    Option (Option Request) :=
  if command == "place" then some ((tryOrderPlace args).map (Request.postJson ep))
  else none

/-- Events of `handle_order_command`: endpoint is `<base>/order`; its
`except` handler prints the structured Invalid Request body. -/
def handle_order_command (base command : String) (args : List String) (http : Oracle) :
    List Event :=
  match orderRequest (base ++ "/order") command args with
  | none => []
  | some req? => tryBranch req? orderFailLiteral http

/-- The tokenizer of `process_command`: split on whitespace; token 0 is the
service (upper-cased), token 1 the action (lower-cased, empty when absent),
the rest are raw arguments (source lines 94-98). -/
def tokenize (line : String) : Option (String × String × List String) :=
  match pySplit line with
  | [] => none
  | s :: rest => some (pyUpper s, pyLower (rest.headD ""), rest.drop 1)

/-- Events of `process_command`: dispatch on the normalized service name;
an unrecognized service falls through every branch and produces nothing. -/
def process_command (base : String) (line : String) (http : Oracle) : List Event :=
  match tokenize line with
  | none => []
  | some (service, command, args) =>
    if service == "USER" then handle_user_command base command args http
    else if service == "PRODUCT" then handle_product_command base command args http
    else if service == "ORDER" then handle_order_command base command args http
    else []

/-- One iteration of the main loop of `parse_workload` on an (already
stripped) line, from the current flag-file presence: skip blank/comment
lines; a `shutdown` line prints a notice and removes the flag file when
present; a `restart` line prints a notice; anything else goes to
`process_command` (source lines 46-66). -/
def lineStep (base : String) (http : Oracle) (l : String) (flag : Bool) :
    List Event × Bool :=
  if isSkippable l then ([], flag)
  else if l == "shutdown" then
    (Event.output "Shutdown command detected" ::
      (if flag then
        [Event.removeFlag, Event.output "Removed restart flag file due to shutdown"]
      else []),
     false)
  else if l == "restart" then
    ([Event.output "Restart command detected, keeping existing database"], flag)
  else (process_command base l http, flag)

/-- The main loop of `parse_workload` over the stripped lines, threading the
flag-file presence and concatenating each line's events. -/
def runLines (base : String) (http : Oracle) : List String → Bool → List Event × Bool
  | [], flag => ([], flag)
  | l :: rest, flag =>
    ((lineStep base http l flag).1 ++
       (runLines base http rest (lineStep base http l flag).2).1,
     (runLines base http rest (lineStep base http l flag).2).2)

/-- Body of `parse_workload` on the stripped lines: decide the reset policy
from the flag-file presence `flag0` and the first real line, create the flag
file when absent, then stream every line.  The two
`os.path.exists(self.restart_flag_file)` checks both read `flag0`: nothing
between them touches the flag file (`reset_databases` touches only the three
database paths). -/
def parse_workload_lines (base : String) (http : Oracle) (lines : List String)
    (flag0 : Bool) : List Event × Bool :=
  let restart_command := first_real_command lines == some "restart"
  let resetEvents : List Event :=
    if !flag0 && !restart_command then
      [Event.output
         "No restart flag found and first command is not restart. Deleting all database files...",
       Event.resetDB]
    else []
  let flagEvents : List Event :=
    if !flag0 then [Event.createFlag, Event.output "Created restart flag file"] else []
  let flag1 := if !flag0 then true else flag0
  let rest := runLines base http lines flag1
  (resetEvents ++ flagEvents ++ rest.1, rest.2)

/-- `parse_workload`: strip every raw line of the workload file, then run
the driver body (source: `lines = [line.strip() for line in f.readlines()]`
followed by the reset policy and the main loop).  `flag0` is whether
`restart_flag.txt` exists when the run starts; the returned Bool is whether
it exists when the run ends. -/
def parse_workload (base : String) (http : Oracle) (raw : List String) (flag0 : Bool) :
    List Event × Bool :=
  parse_workload_lines base http (raw.map pystrip) flag0

/-- A filesystem state: each path is absent (`none`) or holds content. -/
abbrev FS := String → Option String

/-- The three fixed database file paths of `reset_databases`. -/
def db_files : List String :=
  ["compiled/UserService/users.txt",
   "compiled/ProductService/products.txt",
   "compiled/OrderService/orders.txt"]

/-- `os.remove(p)` on the filesystem model. -/
def fsRemove (fs : FS) (p : String) : FS :=
  fun q => if q = p then none else fs q

/-- `open(p, 'w').close()` on the filesystem model: (re)create `p` empty. -/
def fsCreateEmpty (fs : FS) (p : String) : FS :=
  fun q => if q = p then some "" else fs q

/-- `reset_databases`: delete each database file that exists, then recreate
every database file empty (source lines 68-90; directory creation has no
observable effect in this path-to-content model). -/
def reset_databases (fs : FS) : FS :=
  let afterDelete :=
    db_files.foldl (fun a f => if (a f).isSome then fsRemove a f else a) fs
  db_files.foldl (fun a f => fsCreateEmpty a f) afterDelete

/-- Two characters are equal up to letter case: same upper-casing and same
lower-casing (for ASCII this says they are the same letter in either case,
or the same non-letter character). -/
def charCaseEq (c d : Char) : Bool := c.toUpper == d.toUpper && c.toLower == d.toLower

/-- Pointwise `charCaseEq` on equal-length character lists. -/
def listCaseEq : List Char → List Char → Bool
  | [], [] => true
  | c :: cs, d :: ds => charCaseEq c d && listCaseEq cs ds
  | _, _ => false

/-- Two strings differ only in letter case. -/
def strCaseEq (s t : String) : Bool := listCaseEq s.data t.data

/-- Key of an update argument (before its first colon). -/
def colonKey (a : String) : String := ((pySplitColon a).getD ("", "")).1

/-- Value of an update argument (after its first colon). -/
def colonVal (a : String) : String := ((pySplitColon a).getD ("", "")).2

/-- Modelled from the spec (claim C5's expected payload): `command`,
`id`, then one field per `key:value` argument in order, the value kept as a
raw string. -/
def specUpdatePayload (i : Int) (rest : List String) : List (String × Value) :=
  ("command", Value.str "update") :: ("id", Value.int i) ::
    rest.map (fun a => (colonKey a, Value.str (colonVal a)))

/-! ### Helper lemmas on the string primitives -/

theorem dropWhile_idem (p : Char → Bool) (l : List Char) :
    List.dropWhile p (List.dropWhile p l) = List.dropWhile p l := by
  induction l with
  | nil => rfl
  | cons a t ih =>
    by_cases h : p a
    · simp [List.dropWhile_cons, h, ih]
    · simp [List.dropWhile_cons, h]

theorem dropWhile_append (p : Char → Bool) (l₁ l₂ : List Char) :
    List.dropWhile p (l₁ ++ l₂) =
      if (List.dropWhile p l₁).isEmpty then List.dropWhile p l₂
      else List.dropWhile p l₁ ++ l₂ := by
  induction l₁ with
  | nil => simp
  | cons a t ih =>
    by_cases h : p a
    · simpa [List.dropWhile_cons, h] using ih
    · simp [List.dropWhile_cons, h]

theorem dropWhile_length_le (p : Char → Bool) (l : List Char) :
    (List.dropWhile p l).length ≤ l.length := by
  induction l with
  | nil => simp
  | cons a t ih =>
    by_cases h : p a
    · simp only [List.dropWhile_cons, h, if_true]
      exact Nat.le_succ_of_le ih
    · simp [List.dropWhile_cons, h]

theorem stripL_idem (l : List Char) : stripL (stripL l) = stripL l :=
  dropWhile_idem isPyWs l

theorem stripR_idem (l : List Char) : stripR (stripR l) = stripR l := by
  unfold stripR
  rw [List.reverse_reverse, dropWhile_idem]

theorem stripL_stripR_of_stripL {l : List Char} (h : stripL l = l) :
    stripL (stripR l) = stripR l := by
  cases l with
  | nil => rfl
  | cons c t =>
    cases hc : isPyWs c with
    | true =>
      exfalso
      have h1 : List.dropWhile isPyWs t = c :: t := by
        simpa [stripL, List.dropWhile_cons, hc] using h
      have h2 := dropWhile_length_le isPyWs t
      rw [h1] at h2
      simp at h2
    | false =>
      unfold stripR
      rw [List.reverse_cons, dropWhile_append]
      cases he : (List.dropWhile isPyWs t.reverse).isEmpty with
      | true => simp [he, stripL, List.dropWhile_cons, hc]
      | false => simp [he, stripL, List.reverse_append, List.dropWhile_cons, hc]

theorem pystrip_idem (s : String) : pystrip (pystrip s) = pystrip s := by
  have h1 : stripL (stripR (stripL s.data)) = stripR (stripL s.data) :=
    stripL_stripR_of_stripL (stripL_idem s.data)
  show String.mk (stripR (stripL (stripR (stripL s.data)))) = String.mk (stripR (stripL s.data))
  rw [h1, stripR_idem]

theorem map_pystrip_idem (raw : List String) :
    (raw.map pystrip).map pystrip = raw.map pystrip := by
  induction raw with
  | nil => rfl
  | cons a t ih => simp [pystrip_idem, ih]

/-! ### The main loop emits no reset event -/

theorem respOutput_ne_resetDB (c : String) (o : HttpOutcome) :
    respOutput c o ≠ Event.resetDB := by
  cases o with
  | response st t =>
    by_cases h : (st == 200) = true <;> simp [respOutput, h]
  | exn => simp [respOutput]

theorem resetDB_not_mem_tryBranch (req? : Option Request) (c : String) (http : Oracle) :
    Event.resetDB ∉ tryBranch req? c http := by
  cases req? with
  | none => simp [tryBranch]
  | some r =>
    intro hmem
    simp only [tryBranch, List.mem_cons, List.not_mem_nil, or_false] at hmem
    rcases hmem with h | h
    · exact Event.noConfusion h
    · exact respOutput_ne_resetDB c (http r) h.symm

theorem resetDB_not_mem_user (base command : String) (args : List String) (http : Oracle) :
    Event.resetDB ∉ handle_user_command base command args http := by
  unfold handle_user_command
  split
  · simp
  · exact resetDB_not_mem_tryBranch _ _ _

theorem resetDB_not_mem_product (base command : String) (args : List String) (http : Oracle) :
    Event.resetDB ∉ handle_product_command base command args http := by
  unfold handle_product_command
  split
  · simp
  · exact resetDB_not_mem_tryBranch _ _ _

theorem resetDB_not_mem_order (base command : String) (args : List String) (http : Oracle) :
    Event.resetDB ∉ handle_order_command base command args http := by
  unfold handle_order_command
  split
  · simp
  · exact resetDB_not_mem_tryBranch _ _ _

theorem resetDB_not_mem_process (base line : String) (http : Oracle) :
    Event.resetDB ∉ process_command base line http := by
  unfold process_command
  split
  · simp
  · split_ifs
    · exact resetDB_not_mem_user _ _ _ _
    · exact resetDB_not_mem_product _ _ _ _
    · exact resetDB_not_mem_order _ _ _ _
    · simp

theorem resetDB_not_mem_lineStep (base : String) (http : Oracle) (l : String) (flag : Bool) :
    Event.resetDB ∉ (lineStep base http l flag).1 := by
  unfold lineStep
  cases h1 : isSkippable l with
  | true => simp [h1]
  | false =>
    cases h2 : l == "shutdown" with
    | true => cases flag <;> simp [h1, h2]
    | false =>
      cases h3 : l == "restart" with
      | true => simp [h1, h2, h3]
      | false => simpa [h1, h2, h3] using resetDB_not_mem_process base l http

theorem resetDB_not_mem_runLines (base : String) (http : Oracle) (lines : List String)
    (flag : Bool) : Event.resetDB ∉ (runLines base http lines flag).1 := by
  induction lines generalizing flag with
  | nil => simp [runLines]
  | cons l rest ih =>
    intro hmem
    rcases List.mem_append.mp (by simpa [runLines] using hmem) with h | h
    · exact resetDB_not_mem_lineStep base http l flag h
    · exact ih _ h

/-! ### Claim C1 -/

/-- C1: for every workload and initial flag state, the database reset action
is invoked during a run iff the flag file is absent when the run starts and
the first non-blank, non-comment (stripped) line is not exactly `restart`;
a workload with no real line has `first_real_command = none`, which differs
from `some "restart"`, so reset then runs whenever the flag is absent. -/
theorem c1_reset_policy (base : String) (http : Oracle) (raw : List String) (flag0 : Bool) :
    Event.resetDB ∈ (parse_workload base http raw flag0).1 ↔
      flag0 = false ∧ first_real_command (raw.map pystrip) ≠ some "restart" := by
  cases hf : flag0 with
  | true =>
    have hrun := resetDB_not_mem_runLines base http (raw.map pystrip) true
    simp [parse_workload, parse_workload_lines, hrun]
  | false =>
    have hrun := resetDB_not_mem_runLines base http (raw.map pystrip) true
    by_cases hr : first_real_command (raw.map pystrip) = some "restart"
    · simp [parse_workload, parse_workload_lines, hr, hrun]
    · have hr' : (first_real_command (raw.map pystrip) == some "restart") = false :=
        beq_eq_false_iff_ne.mpr hr
      simp [parse_workload, parse_workload_lines, hr', hrun, hr]

/-! ### Claim C4 -/

theorem foldl_delete_not_mem (files : List String) (fs : FS) (q : String)
    (hq : q ∉ files) :
    (files.foldl (fun a f => if (a f).isSome then fsRemove a f else a) fs) q = fs q := by
  induction files generalizing fs with
  | nil => rfl
  | cons f t ih =>
    have hqf : q ≠ f := fun h => hq (h ▸ List.mem_cons_self f t)
    have hqt : q ∉ t := fun h => hq (List.mem_cons_of_mem f h)
    simp only [List.foldl_cons]
    rw [ih _ hqt]
    by_cases h : (fs f).isSome
    · simp [h, fsRemove, hqf]
    · simp [h]

theorem foldl_create_apply (files : List String) (fs : FS) (q : String) :
    (files.foldl (fun a f => fsCreateEmpty a f) fs) q =
      if q ∈ files then some "" else fs q := by
  induction files generalizing fs with
  | nil => simp
  | cons f t ih =>
    simp only [List.foldl_cons]
    rw [ih]
    by_cases hqt : q ∈ t
    · simp [hqt]
    · by_cases hqf : q = f
      · simp [hqt, hqf, fsCreateEmpty]
      · simp [hqt, hqf, fsCreateEmpty]

theorem reset_databases_apply (fs : FS) (q : String) :
    reset_databases fs q = if q ∈ db_files then some "" else fs q := by
  show (db_files.foldl (fun a f => fsCreateEmpty a f)
      (db_files.foldl (fun a f => if (a f).isSome then fsRemove a f else a) fs)) q = _
  rw [foldl_create_apply]
  by_cases h : q ∈ db_files
  · simp [h]
  · simp [h, foldl_delete_not_mem db_files fs q h]

/-- C4: the database reset action is idempotent: from any filesystem state,
running it once and twice in a row give the same end state, in which the
three fixed database files all exist and are empty and every other path is
untouched. -/
theorem c4_idempotent_reset (fs : FS) :
    reset_databases (reset_databases fs) = reset_databases fs ∧
    (∀ p, p ∈ db_files → reset_databases fs p = some "") ∧
    (∀ q, q ∉ db_files → reset_databases fs q = fs q) := by
  refine ⟨funext fun q => ?_, fun p hp => ?_, fun q hq => ?_⟩
  · rw [reset_databases_apply (reset_databases fs) q]
    by_cases h : q ∈ db_files
    · rw [reset_databases_apply fs q]
      simp [h]
    · simp [h]
  · rw [reset_databases_apply]
    simp [hp]
  · rw [reset_databases_apply]
    simp [hq]

/-- Witness for C4 at the empty filesystem and concrete paths. -/
theorem c4_idempotent_reset_witness :
    reset_databases (reset_databases (fun _ => none)) = reset_databases (fun _ => none) ∧
    reset_databases (fun _ => none) "compiled/UserService/users.txt" = some "" ∧
    reset_databases (fun _ => none) "config.json" = none :=
  ⟨(c4_idempotent_reset (fun _ => none)).1,
   (c4_idempotent_reset (fun _ => none)).2.1 "compiled/UserService/users.txt" (by decide),
   (c4_idempotent_reset (fun _ => none)).2.2 "config.json" (by decide)⟩

/-! ### Claim C2 -/

theorem lineStep_snd (base : String) (http : Oracle) (l : String) (flag : Bool) :
    (lineStep base http l flag).2 = if l == "shutdown" then false else flag := by
  by_cases hl : l = "shutdown"
  · subst hl
    have hsk : isSkippable "shutdown" = false := by decide
    simp [lineStep, hsk]
  · have hl' : (l == "shutdown") = false := beq_eq_false_iff_ne.mpr hl
    unfold lineStep
    cases h1 : isSkippable l with
    | true => simp [hl']
    | false =>
      cases h3 : l == "restart" with
      | true => simp [hl', h3]
      | false => simp [hl', h3]

theorem runLines_snd (base : String) (http : Oracle) (lines : List String) (flag : Bool) :
    (runLines base http lines flag).2 =
      (flag && !(lines.any (fun l => l == "shutdown"))) := by
  induction lines generalizing flag with
  | nil => simp [runLines]
  | cons l rest ih =>
    show (runLines base http rest (lineStep base http l flag).2).2 = _
    rw [ih, lineStep_snd]
    cases hl : l == "shutdown" with
    | true => simp [hl]
    | false => simp [hl]

/-- C2 (amended): after a run the flag file exists iff no stripped workload
line is exactly `shutdown` (the flag is always created at start-up when
absent, every `shutdown` line deletes it, and nothing later recreates it);
and a `shutdown` line, at any position, leaves the flag absent and emits the
flag-file removal exactly when the flag is present at that moment. -/
theorem c2_flag_lifecycle (base : String) (http : Oracle) (raw : List String)
    (flag0 flag : Bool) :
    ((parse_workload base http raw flag0).2 =
      !((raw.map pystrip).any (fun l => l == "shutdown"))) ∧
    (lineStep base http "shutdown" flag).2 = false ∧
    (flag = true → Event.removeFlag ∈ (lineStep base http "shutdown" flag).1) := by
  refine ⟨?_, ?_, fun hf => ?_⟩
  · show (runLines base http (raw.map pystrip) (if !flag0 then true else flag0)).2 = _
    rw [runLines_snd]
    cases flag0 <;> simp
  · rw [lineStep_snd]
    simp
  · subst hf
    have h : (lineStep base http "shutdown" true).1 =
        [Event.output "Shutdown command detected", Event.removeFlag,
         Event.output "Removed restart flag file due to shutdown"] := rfl
    rw [h]
    simp

/-- Witness for C2 at a concrete run and a concrete shutdown step. -/
theorem c2_flag_lifecycle_witness :
    ((parse_workload "u" exnOracle ["user get 1"] true).2 =
      !(((["user get 1"]).map pystrip).any (fun l => l == "shutdown"))) ∧
    Event.removeFlag ∈ (lineStep "u" exnOracle "shutdown" true).1 :=
  ⟨(c2_flag_lifecycle "u" exnOracle ["user get 1"] true true).1,
   (c2_flag_lifecycle "u" exnOracle ["user get 1"] true true).2.2 rfl⟩

/-- Counterexample to C2 as stated: in the workload
`["shutdown", "user get 1"]` the last processed (non-skippable) line is
`user get 1`, not `shutdown`, yet the flag file — present at the start of
the run — does not exist after the run: the mid-file `shutdown` deleted it
and nothing recreates it. -/
theorem c2_counterexample :
    ((["shutdown", "user get 1"].map pystrip).filter
        (fun l => !isSkippable l)).getLast? = some "user get 1" ∧
    "user get 1" ≠ "shutdown" ∧
    (parse_workload "u" (fun _ => HttpOutcome.response 200 "ok")
        ["shutdown", "user get 1"] true).2 = false := by
  refine ⟨by decide, by decide, ?_⟩
  decide

/-! ### Claim C3 -/

/-- C3: every exception in a dispatched command is caught inside the
dispatcher: a branch whose request construction raised (`some none`) prints
exactly the generic placeholder `Failed:  ` with empty braces, a branch
whose HTTP call raised prints the same after issuing the one request, and
the ORDER place branch prints the structured Invalid Request body instead;
the main loop always continues with the remaining lines regardless of the
current line's events. -/
theorem c3_exception_handling (base command : String) (args : List String) (http : Oracle) :
    (userRequest (base ++ "/user") command args = some none →
      handle_user_command base command args http = [Event.output failLiteral]) ∧
    (∀ r, userRequest (base ++ "/user") command args = some (some r) →
      http r = HttpOutcome.exn →
      handle_user_command base command args http =
        [Event.request r, Event.output failLiteral]) ∧
    (productRequest (base ++ "/product") command args = some none →
      handle_product_command base command args http = [Event.output failLiteral]) ∧
    (∀ r, productRequest (base ++ "/product") command args = some (some r) →
      http r = HttpOutcome.exn →
      handle_product_command base command args http =
        [Event.request r, Event.output failLiteral]) ∧
    (orderRequest (base ++ "/order") command args = some none →
      handle_order_command base command args http = [Event.output orderFailLiteral]) ∧
    (∀ r, orderRequest (base ++ "/order") command args = some (some r) →
      http r = HttpOutcome.exn →
      handle_order_command base command args http =
        [Event.request r, Event.output orderFailLiteral]) ∧
    (∀ l rest flag, (runLines base http (l :: rest) flag).1 =
      (lineStep base http l flag).1 ++
        (runLines base http rest (lineStep base http l flag).2).1) := by
  refine ⟨fun h => ?_, fun r h hx => ?_, fun h => ?_, fun r h hx => ?_, fun h => ?_,
    fun r h hx => ?_, fun l rest flag => rfl⟩
  · simp [handle_user_command, h, tryBranch]
  · simp [handle_user_command, h, tryBranch, respOutput, hx]
  · simp [handle_product_command, h, tryBranch]
  · simp [handle_product_command, h, tryBranch, respOutput, hx]
  · simp [handle_order_command, h, tryBranch]
  · simp [handle_order_command, h, tryBranch, respOutput, hx]

/-- Witness for C3: a build failure, an HTTP-call failure, and the ORDER
place build failure, at concrete inputs. -/
theorem c3_exception_handling_witness :
    handle_user_command "u" "create" [] exnOracle = [Event.output failLiteral] ∧
    handle_user_command "u" "get" ["5"] exnOracle =
      [Event.request (Request.getReq ("u" ++ "/user" ++ "/" ++ "5")),
       Event.output failLiteral] ∧
    handle_order_command "u" "place" [] exnOracle = [Event.output orderFailLiteral] :=
  ⟨(c3_exception_handling "u" "create" [] exnOracle).1 rfl,
   (c3_exception_handling "u" "get" ["5"] exnOracle).2.1
     (Request.getReq ("u" ++ "/user" ++ "/" ++ "5")) rfl rfl,
   (c3_exception_handling "u" "place" [] exnOracle).2.2.2.2.1 rfl⟩

/-! ### Claim C7 -/

/-- C7: a line whose first token does not normalize to USER, PRODUCT or
ORDER produces no events at all (no request, no error, no print), and for a
recognized service any action outside its dispatch table likewise produces
no events. -/
theorem c7_unknown_noop (base line s : String) (rest : List String) (command : String)
    (args : List String) (http : Oracle) :
    (pySplit line = s :: rest → pyUpper s ≠ "USER" → pyUpper s ≠ "PRODUCT" →
      pyUpper s ≠ "ORDER" → process_command base line http = []) ∧
    (command ≠ "create" → command ≠ "get" → command ≠ "update" → command ≠ "delete" →
      handle_user_command base command args http = []) ∧
    (command ≠ "create" → command ≠ "info" → command ≠ "update" → command ≠ "delete" →
      handle_product_command base command args http = []) ∧
    (command ≠ "place" → handle_order_command base command args http = []) := by
  refine ⟨fun hs h1 h2 h3 => ?_, fun h1 h2 h3 h4 => ?_, fun h1 h2 h3 h4 => ?_, fun h1 => ?_⟩
  · simp [process_command, tokenize, hs, beq_eq_false_iff_ne.mpr h1,
      beq_eq_false_iff_ne.mpr h2, beq_eq_false_iff_ne.mpr h3]
  · simp [handle_user_command, userRequest, beq_eq_false_iff_ne.mpr h1,
      beq_eq_false_iff_ne.mpr h2, beq_eq_false_iff_ne.mpr h3, beq_eq_false_iff_ne.mpr h4]
  · simp [handle_product_command, productRequest, beq_eq_false_iff_ne.mpr h1,
      beq_eq_false_iff_ne.mpr h2, beq_eq_false_iff_ne.mpr h3, beq_eq_false_iff_ne.mpr h4]
  · simp [handle_order_command, orderRequest, beq_eq_false_iff_ne.mpr h1]

/-- Witness for C7: the line `FOO bar baz` and unknown actions, concretely. -/
theorem c7_unknown_noop_witness :
    process_command "u" "FOO bar baz" exnOracle = [] ∧
    handle_user_command "u" "frobnicate" ["1"] exnOracle = [] ∧
    handle_product_command "u" "frobnicate" ["1"] exnOracle = [] ∧
    handle_order_command "u" "create" ["1"] exnOracle = [] :=
  ⟨(c7_unknown_noop "u" "FOO bar baz" "FOO" ["bar", "baz"] "x" [] exnOracle).1
      (by decide) (by decide) (by decide) (by decide),
   (c7_unknown_noop "u" "x" "x" [] "frobnicate" ["1"] exnOracle).2.1
      (by decide) (by decide) (by decide) (by decide),
   (c7_unknown_noop "u" "x" "x" [] "frobnicate" ["1"] exnOracle).2.2.1
      (by decide) (by decide) (by decide) (by decide),
   (c7_unknown_noop "u" "x" "x" [] "create" ["1"] exnOracle).2.2.2 (by decide)⟩

/-! ### Claim C8 -/

theorem userRequest_get (ep : String) (args : List String) :
    userRequest ep "get" args =
      some ((args[0]?).map (fun uid => Request.getReq (ep ++ "/" ++ uid))) := rfl

theorem productRequest_info (ep : String) (args : List String) :
    productRequest ep "info" args =
      some ((args[0]?).map (fun pid => Request.getReq (ep ++ "/" ++ pid))) := rfl

/-- C8: USER get and PRODUCT info never coerce the id: with at least one
argument, the dispatcher always issues the GET to
`<base>/<service>/<raw first token>` — even a non-numeric id yields a
request, never a coercion failure, so the no-request failure path is
unreachable for a non-empty argument list. -/
theorem c8_get_id_raw (base : String) (http : Oracle) (a0 : String) (rest : List String) :
    handle_user_command base "get" (a0 :: rest) http =
      [Event.request (Request.getReq (base ++ "/user" ++ "/" ++ a0)),
       respOutput failLiteral (http (Request.getReq (base ++ "/user" ++ "/" ++ a0)))] ∧
    handle_product_command base "info" (a0 :: rest) http =
      [Event.request (Request.getReq (base ++ "/product" ++ "/" ++ a0)),
       respOutput failLiteral (http (Request.getReq (base ++ "/product" ++ "/" ++ a0)))] := by
  constructor <;>
    simp [handle_user_command, handle_product_command, userRequest_get, productRequest_info,
      List.getElem?_cons_zero, tryBranch]

/-! ### Claim C9 -/

theorem updateFields_eq_none (rest : List String) (init : List (String × Value))
    (h : ∃ a ∈ rest, pySplitColon a = none) : updateFields rest init = none := by
  induction rest generalizing init with
  | nil => simp at h
  | cons a t ih =>
    obtain ⟨b, hb, hbn⟩ := h
    rcases List.mem_cons.mp hb with rfl | hbt
    · simp [updateFields, hbn]
    · unfold updateFields
      cases hc : pySplitColon a with
      | none => rfl
      | some kv => exact ih _ ⟨b, hbt, hbn⟩

theorem userRequest_update (ep : String) (args : List String) :
    userRequest ep "update" args =
      some ((tryUserUpdate args).map (Request.postJson ep)) := rfl

theorem productRequest_update (ep : String) (args : List String) :
    productRequest ep "update" args =
      some ((tryProductUpdate args).map (Request.postJson ep)) := rfl

theorem tryUserUpdate_none (args : List String)
    (h : ∃ a ∈ args.drop 1, pySplitColon a = none) : tryUserUpdate args = none := by
  cases args with
  | nil => rfl
  | cons a0 t =>
    simp only [List.drop_succ_cons, List.drop_zero] at h
    unfold tryUserUpdate
    cases hi : pyInt a0 with
    | none => simp [hi]
    | some i => simp [hi, updateFields_eq_none t _ h]

theorem tryProductUpdate_none (args : List String)
    (h : ∃ a ∈ args.drop 1, pySplitColon a = none) : tryProductUpdate args = none := by
  cases args with
  | nil => rfl
  | cons a0 t =>
    simp only [List.drop_succ_cons, List.drop_zero] at h
    unfold tryProductUpdate
    cases hi : pyInt a0 with
    | none => simp [hi]
    | some i => simp [hi, updateFields_eq_none t _ h]

/-- C9: a USER or PRODUCT update command with some post-id argument lacking
a colon fails atomically: the field loop raises before the HTTP call, the
exception is caught, only the `Failed` placeholder is printed, and no
request event is ever emitted. -/
theorem c9_update_atomic_failure (base : String) (http : Oracle) (args : List String) :
    ((∃ a ∈ args.drop 1, pySplitColon a = none) →
      handle_user_command base "update" args http = [Event.output failLiteral] ∧
      ∀ r, Event.request r ∉ handle_user_command base "update" args http) ∧
    ((∃ a ∈ args.drop 1, pySplitColon a = none) →
      handle_product_command base "update" args http = [Event.output failLiteral] ∧
      ∀ r, Event.request r ∉ handle_product_command base "update" args http) := by
  refine ⟨fun h => ?_, fun h => ?_⟩
  · have ht := tryUserUpdate_none args h
    refine ⟨?_, fun r => ?_⟩ <;>
      simp [handle_user_command, userRequest_update, ht, tryBranch]
  · have ht := tryProductUpdate_none args h
    refine ⟨?_, fun r => ?_⟩ <;>
      simp [handle_product_command, productRequest_update, ht, tryBranch]

/-- Witness for C9 at a colon-less update argument. -/
theorem c9_update_atomic_failure_witness :
    handle_user_command "u" "update" ["7", "nocolon"] exnOracle =
      [Event.output failLiteral] ∧
    handle_product_command "u" "update" ["7", "nocolon"] exnOracle =
      [Event.output failLiteral] :=
  ⟨((c9_update_atomic_failure "u" exnOracle ["7", "nocolon"]).1
      ⟨"nocolon", by decide, by decide⟩).1,
   ((c9_update_atomic_failure "u" exnOracle ["7", "nocolon"]).2
      ⟨"nocolon", by decide, by decide⟩).1⟩

/-! ### Claim C5 -/

theorem dictSet_not_mem (d : List (String × Value)) (k : String) (v : Value)
    (hk : k ∉ d.map Prod.fst) : dictSet d k v = d ++ [(k, v)] := by
  have h : (d.any fun kv => kv.1 == k) = false := by
    rw [List.any_eq_false]
    intro kv hkv hbeq
    exact hk (List.mem_map.mpr ⟨kv, hkv, eq_of_beq hbeq⟩)
  simp [dictSet, h]

theorem updateFields_append (rest : List String) (init : List (String × Value))
    (h1 : ∀ a ∈ rest, (pySplitColon a).isSome)
    (h2 : (rest.map colonKey).Nodup)
    (h3 : ∀ a ∈ rest, colonKey a ∉ init.map Prod.fst) :
    updateFields rest init =
      some (init ++ rest.map (fun a => (colonKey a, Value.str (colonVal a)))) := by
  induction rest generalizing init with
  | nil => simp [updateFields]
  | cons a t ih =>
    obtain ⟨kv, hkv⟩ := Option.isSome_iff_exists.mp (h1 a (List.mem_cons_self a t))
    have hk : colonKey a = kv.1 := by simp [colonKey, hkv]
    have hv : colonVal a = kv.2 := by simp [colonVal, hkv]
    have hset : dictSet init kv.1 (Value.str kv.2) = init ++ [(kv.1, Value.str kv.2)] :=
      dictSet_not_mem init kv.1 (Value.str kv.2) (hk ▸ h3 a (List.mem_cons_self a t))
    have h2' : colonKey a ∉ t.map colonKey ∧ (t.map colonKey).Nodup := by
      rw [List.map_cons] at h2
      exact List.nodup_cons.mp h2
    obtain ⟨hka, hnd⟩ := h2'
    have h1' : ∀ b ∈ t, (pySplitColon b).isSome :=
      fun b hb => h1 b (List.mem_cons_of_mem a hb)
    have h3' : ∀ b ∈ t, colonKey b ∉ (init ++ [(kv.1, Value.str kv.2)]).map Prod.fst := by
      intro b hb
      rw [List.map_append, List.mem_append]
      rintro (hmem | hmem)
      · exact h3 b (List.mem_cons_of_mem a hb) hmem
      · have hbk : colonKey b = kv.1 := by simpa using hmem
        exact hka (List.mem_map.mpr ⟨b, hb, hbk.trans hk.symm⟩)
    simp only [updateFields, hkv]
    rw [hset, ih _ h1' hnd h3']
    simp [List.append_assoc, hk, hv]

/-- Counterexample to C5 as stated: the command line
`user update 7 id:8` satisfies the claim's hypotheses (first argument
parseable as an integer, remaining argument contains a colon), but the
built payload does NOT contain `id` bound to the integer 7: the `key:value`
loop's dict assignment overwrites the `id` field in place with the raw
string `8`. -/
theorem c5_counterexample :
    pyInt "7" = some 7 ∧ pySplitColon "id:8" = some ("id", "8") ∧
    tryUserUpdate ["7", "id:8"] =
      some [("command", Value.str "update"), ("id", Value.str "8")] ∧
    ("id", Value.int 7) ∉
      [("command", Value.str "update"), ("id", Value.str "8")] := by
  refine ⟨by decide, by decide, by decide, by decide⟩

/-- C5 (amended): for a USER update line whose first argument parses as an
integer and whose remaining arguments each contain a colon, PROVIDED the
keys (the parts before the first colon) are pairwise distinct and none of
them is `command` or `id`, the dispatcher sends one POST to `<base>/user`
whose payload is `command="update"`, `id` = the integer, then one field per
argument mapping its key to the raw string value; a repeated or reserved
key instead overwrites the earlier field in place. -/
theorem c5_user_update_request (base : String) (http : Oracle) (a0 : String) (i : Int)
    (rest : List String)
    (hint : pyInt a0 = some i)
    (hcolon : ∀ a ∈ rest, (pySplitColon a).isSome)
    (hnodup : (rest.map colonKey).Nodup)
    (hres : ∀ a ∈ rest, colonKey a ≠ "command" ∧ colonKey a ≠ "id") :
    handle_user_command base "update" (a0 :: rest) http =
      [Event.request (Request.postJson (base ++ "/user") (specUpdatePayload i rest)),
       respOutput failLiteral
         (http (Request.postJson (base ++ "/user") (specUpdatePayload i rest)))] := by
  have h3 : ∀ a ∈ rest, colonKey a ∉
      ([("command", Value.str "update"), ("id", Value.int i)] :
        List (String × Value)).map Prod.fst := by
    intro a ha
    simp [(hres a ha).1, (hres a ha).2]
  have ht : tryUserUpdate (a0 :: rest) = some (specUpdatePayload i rest) := by
    have hu : tryUserUpdate (a0 :: rest) =
        updateFields rest [("command", Value.str "update"), ("id", Value.int i)] := by
      simp [tryUserUpdate, List.getElem?_cons_zero, hint]
    rw [hu, updateFields_append rest _ hcolon hnodup h3]
    rfl
  simp [handle_user_command, userRequest_update, ht, tryBranch]

/-- Witness for C5 at the spec's Scenario E. -/
theorem c5_user_update_request_witness :
    handle_user_command "http://h:1" "update" ["7", "email:new@x.com", "status:active"]
        exnOracle =
      [Event.request (Request.postJson ("http://h:1" ++ "/user")
         (specUpdatePayload 7 ["email:new@x.com", "status:active"])),
       respOutput failLiteral (exnOracle (Request.postJson ("http://h:1" ++ "/user")
         (specUpdatePayload 7 ["email:new@x.com", "status:active"])))] :=
  c5_user_update_request "http://h:1" exnOracle "7" 7 ["email:new@x.com", "status:active"]
    (by decide) (by decide) (by decide) (by decide)

/-! ### Claim C6 -/

theorem listCaseEq_maps {cs ds : List Char} (h : listCaseEq cs ds = true) :
    cs.map Char.toUpper = ds.map Char.toUpper ∧
    cs.map Char.toLower = ds.map Char.toLower := by
  induction cs generalizing ds with
  | nil =>
    cases ds with
    | nil => exact ⟨rfl, rfl⟩
    | cons d dt => simp [listCaseEq] at h
  | cons c ct ih =>
    cases ds with
    | nil => simp [listCaseEq] at h
    | cons d dt =>
      obtain ⟨hc, htl⟩ := (Bool.and_eq_true _ _).mp (by simpa [listCaseEq] using h)
      have hc' : c.toUpper = d.toUpper ∧ c.toLower = d.toLower := by
        simpa [charCaseEq] using hc
      obtain ⟨ihu, ihl⟩ := ih htl
      exact ⟨by simp [hc'.1, ihu], by simp [hc'.2, ihl]⟩

theorem strCaseEq_norm {s t : String} (h : strCaseEq s t = true) :
    pyUpper s = pyUpper t ∧ pyLower s = pyLower t := by
  obtain ⟨hu, hl⟩ := listCaseEq_maps h
  exact ⟨congrArg String.mk hu, congrArg String.mk hl⟩

/-- C6: tokenization is case-insensitive in the service and action tokens:
two lines whose whitespace tokens agree except for letter case in token 0
and token 1 tokenize to the same (service, action, args) triple, because
the service token is upper-cased and the action token lower-cased; a line
with no second token gets the empty string as its action. -/
theorem c6_tokenize_case (l1 l2 t0 t0' t1 t1' : String) (rest : List String) :
    (pySplit l1 = t0 :: t1 :: rest → pySplit l2 = t0' :: t1' :: rest →
      strCaseEq t0 t0' = true → strCaseEq t1 t1' = true → tokenize l1 = tokenize l2) ∧
    (pySplit l1 = [t0] → pySplit l2 = [t0'] → strCaseEq t0 t0' = true →
      tokenize l1 = tokenize l2) ∧
    (pySplit l1 = [t0] → tokenize l1 = some (pyUpper t0, "", [])) := by
  refine ⟨fun h1 h2 hc0 hc1 => ?_, fun h1 h2 hc0 => ?_, fun h1 => ?_⟩
  · simp [tokenize, h1, h2, (strCaseEq_norm hc0).1, (strCaseEq_norm hc1).2]
  · simp [tokenize, h1, h2, (strCaseEq_norm hc0).1]
  · simp [tokenize, h1]
    rfl

/-- Witness for C6: `user create 1` and `USER Create 1` tokenize alike. -/
theorem c6_tokenize_case_witness :
    tokenize "user create 1" = tokenize "USER Create 1" :=
  (c6_tokenize_case "user create 1" "USER Create 1" "user" "USER" "create" "Create"
      ["1"]).1 (by decide) (by decide) (by decide) (by decide)

/-! ### Claim C10 -/

theorem dropWhile_eq_nil_of_all {l : List Char} (h : l.all isPyWs = true) :
    List.dropWhile isPyWs l = [] := by
  induction l with
  | nil => rfl
  | cons a t ih =>
    have ha : isPyWs a = true ∧ t.all isPyWs = true := by simpa using h
    simp [List.dropWhile_cons, ha.1, ih ha.2]

/-- C10: every workload line is stripped before classification — running a
workload equals running its pre-stripped lines; a whitespace-only line
strips to the blank line; a comment marker behind spaces is still a
skippable comment; the first real line `  restart  ` counts as the restart
command, so no reset event occurs even with the flag absent; and an
indented `shutdown` line still removes the flag file. -/
theorem c10_stripping (base : String) (http : Oracle) (raw : List String) (flag0 : Bool)
    (s : String) :
    parse_workload base http raw flag0 = parse_workload base http (raw.map pystrip) flag0 ∧
    (s.data.all isPyWs = true → pystrip s = "") ∧
    (pystrip "   # note" = "# note" ∧ isSkippable "# note" = true) ∧
    Event.resetDB ∉ (parse_workload base http ["  restart  "] false).1 ∧
    Event.removeFlag ∈ (parse_workload base http ["\tshutdown"] true).1 := by
  refine ⟨?_, fun h => ?_, ⟨by decide, by decide⟩, ?_, ?_⟩
  · show parse_workload_lines base http (raw.map pystrip) flag0 =
      parse_workload_lines base http ((raw.map pystrip).map pystrip) flag0
    rw [map_pystrip_idem]
  · show String.mk (stripR (stripL s.data)) = ""
    rw [show stripL s.data = [] from dropWhile_eq_nil_of_all h]
    rfl
  · have hev : (parse_workload base http ["  restart  "] false).1 =
        [Event.createFlag, Event.output "Created restart flag file",
         Event.output "Restart command detected, keeping existing database"] := rfl
    rw [hev]
    simp
  · have hev : (parse_workload base http ["\tshutdown"] true).1 =
        [Event.output "Shutdown command detected", Event.removeFlag,
         Event.output "Removed restart flag file due to shutdown"] := rfl
    rw [hev]
    simp

/-- Witness for C10 at a whitespace-only line. -/
theorem c10_stripping_witness : pystrip " \t " = "" :=
  (c10_stripping "u" exnOracle [] false " \t ").2.1 (by decide)

end SpeedServe
